import Mathlib

/-! Shallow embedding of the RAII wrapper layer of the
espeak-ng-example repository: `boni.hpp` (the `nullable` handle
adapter, the deleter adapters and the `auto_handle` owner built on
`std::unique_ptr`), `espeak-ng.hpp` and `sdl2.hpp` (error checks and
library lifecycle wrappers), and the `SynthCallback` of `main.cpp`.
Side effects — calls into the external C libraries and diagnostics
written to `stderr` — are modelled as traces: each function returns
the list of external calls it performs together with its result, and
a thrown `std::runtime_error` is an `Except.error` carrying the
exception message.  Results of external calls (status codes of the
initialisers, the result of `SDL_QueueAudio`, the text returned by
`SDL_GetError`) are oracle parameters of the embedding. -/

namespace boni

/-- Embeds `boni::nullable<handle_type, null_value>` (boni.hpp lines
39-95): the class stores a single `handle_type` field `value`.  The
template argument `null_value` is passed explicitly as `nv` to the
operations that mention it. -/
structure nullable (α : Type) where
  value : α
  deriving DecidableEq

/-- Embeds the default constructor `nullable()`: the member
initialiser `value{null_value}` stores the null value `nv`. -/
def nullable.mk_default {α : Type} (nv : α) : nullable α := ⟨nv⟩

/-- Embeds `nullable(std::nullptr_t)`, which delegates to the default
constructor. -/
def nullable.from_nullptr {α : Type} (nv : α) : nullable α :=
  nullable.mk_default nv

/-- Embeds `nullable(handle_type new_value)`: stores the raw handle
value unchanged. -/
def nullable.from_handle {α : Type} (v : α) : nullable α := ⟨v⟩

/-- Embeds `explicit operator bool()`: returns `value != null_value`. -/
def nullable.to_bool {α : Type} [DecidableEq α] (nv : α) (x : nullable α) : Bool :=
  decide (x.value ≠ nv)

/-- Embeds the implicit conversion `operator handle_type()`: returns
the stored value. -/
def nullable.to_handle {α : Type} (x : nullable α) : α := x.value

/-- Embeds `operator==(self_type, self_type)`: converts both sides to
`handle_type` and compares the results. -/
def nullable.eq {α : Type} [DecidableEq α] (l r : nullable α) : Bool :=
  decide (nullable.to_handle l = nullable.to_handle r)

/-- Embeds `operator!=(self_type, self_type)`: negation of `==`. -/
def nullable.ne {α : Type} [DecidableEq α] (l r : nullable α) : Bool :=
  !(nullable.eq l r)

/-- Embeds `nullable_deleter<handle_type_t, destroy_function>::operator()`
(boni.hpp lines 135-139).  The returned list is the sequence of
arguments with which `destroy_function` is invoked.  The guard in the
source is `if (pointer_to_delete == pointer())`: the destroy function
is forwarded exactly when the argument compares equal to a
default-constructed (null) `pointer`. -/
def nullable_deleter_call {α : Type} [DecidableEq α] (nv : α) (p : nullable α) : List α :=
  if nullable.eq p (nullable.mk_default nv) then [nullable.to_handle p] else []

/-- Embeds `unsafe_handle_deleter<handle_type_t, return_type,
destroy_function>::operator()` (boni.hpp lines 226-230); the Lean name
avoids a reserved word.  Here `pointer` is the raw `handle_type` and
`pointer()` value-initialises to the null value `nv`.  The guard in
the source is `if (handle_to_delete == pointer())`.  The return value
of `destroy_function` is discarded, so the trace only records the
argument.  `handle_deleter` (boni.hpp lines 319-321) is the
`return_type = void` instance of the same class and has the same call
operator. -/
def raw_handle_deleter_call {α : Type} [DecidableEq α] (nv : α) (h : α) : List α :=
  if h = nv then [h] else []

/-- Embeds construction of a `boni::auto_handle` built on
`nullable_deleter` (such as `sdl2::audio_device`) from a raw handle:
the raw value is converted through `nullable(handle_type)` and stored
as the `pointer` of the underlying `std::unique_ptr`. -/
def auto_handle_from_raw {α : Type} (v : α) : nullable α := nullable.from_handle v

/-- Embeds `auto_handle::operator handle_type()` (boni.hpp line 431):
`parent_type::get()` returns the stored `pointer` (a `nullable`),
which converts to `handle_type` through
`nullable::operator handle_type()`. -/
def auto_handle_to_handle {α : Type} (s : nullable α) : α := nullable.to_handle s

/-- Embeds move construction / move assignment of the underlying
`std::unique_ptr`: the destination takes over the source's stored
pointer and the source is left holding the null pointer value.
Returns (new destination state, new source state). -/
def auto_handle_move {α : Type} (nv : α) (src : nullable α) : nullable α × nullable α :=
  (src, nullable.from_nullptr nv)

/-- Embeds the `std::unique_ptr` destructor for a `nullable_deleter`
owner: if `get() != nullptr` — the stored `nullable` differs from the
null value — the deleter's call operator runs on the stored pointer.
Returns the sequence of `destroy_function` invocations. -/
def auto_handle_destroy {α : Type} [DecidableEq α] (nv : α) (s : nullable α) : List α :=
  if nullable.ne s (nullable.from_nullptr nv) then nullable_deleter_call nv s else []

/-- Embeds `std::unique_ptr::reset` for a `nullable_deleter` owner
(replacing the held handle): the new pointer is stored and the old one
is released exactly as in the destructor.  Returns (new state,
sequence of `destroy_function` invocations). -/
def auto_handle_reset {α : Type} [DecidableEq α] (nv : α) (s newp : nullable α) :
    nullable α × List α :=
  (newp, auto_handle_destroy nv s)

end boni

namespace espeak_ng

/-- External calls performed by the eSpeak NG wrappers
(espeak-ng.hpp): `espeak_ng_Initialize` (with the error-context value
it leaves behind), `espeak_ng_PrintStatusCodeMessage`,
`espeak_ng_ClearErrorContext` and `espeak_ng_Terminate`. -/
inductive Call where
  | initEngine (ctx : Int)
  | printStatus (code : Int) (ctx : Int)
  | clearContext (data : Int)
  | terminate
  deriving DecidableEq

/-- Embeds the success status value `ENS_OK`. -/
def ENS_OK : Int := 0

/-- Embeds `espeak_ng::throw_if_not_ok` (espeak-ng.hpp lines 61-69):
if the code differs from `ENS_OK`, `espeak_ng_PrintStatusCodeMessage`
writes a diagnostic to `stderr` with the code and the error context,
and then `std::runtime_error("eSpeak-NG error")` is thrown; otherwise
nothing happens.  A context value of `0` models the default `nullptr`
argument. -/
def throw_if_not_ok (code : Int) (ctx : Int) : List Call × Except String Unit :=
  if code ≠ ENS_OK then
    ([Call.printStatus code ctx], Except.error "eSpeak-NG error")
  else ([], Except.ok ())

/-- Embeds the member initialiser of `error_context::data`: `nullptr`. -/
def error_context_init : Int := 0

/-- Embeds `error_context::~error_context` (espeak-ng.hpp lines
145-149): it calls `espeak_ng_ClearErrorContext(&data)` with no guard,
whatever the current value of `data`. -/
def error_context_destroy (data : Int) : List Call := [Call.clearContext data]

/-- Embeds the constructor `service::service` (espeak-ng.hpp lines
197-202).  A local `error_context` is created; `espeak_ng_Initialize`
is called with its address — the oracle parameters `status` and
`ctxOut` give the status it returns and the context value it leaves in
`data`.  Then `throw_if_not_ok status ctxOut` runs, and on both the
throwing path (during stack unwinding) and the normal path the local
`error_context` is destroyed before the constructor finishes. -/
def service_ctor (status ctxOut : Int) : List Call × Except String Unit :=
  let r := throw_if_not_ok status ctxOut
  (Call.initEngine ctxOut :: (r.1 ++ error_context_destroy ctxOut), r.2)

/-- Embeds the destructor `service::~service` (espeak-ng.hpp lines
205-210): calls `espeak_ng_Terminate`. -/
def service_dtor : List Call := [Call.terminate]

/-- C++ lifetime semantics of a scope holding an `espeak_ng::service`:
if the constructor throws, the destructor never runs and the exception
propagates out of the scope; if the constructor succeeds, the rest of
the scope runs (its outcome is the oracle `body`) and the destructor
runs when the scope is left, whether normally or by stack unwinding
after `body` raised. -/
def service_scope (status ctxOut : Int) (body : Except String Unit) :
    List Call × Except String Unit :=
  match service_ctor status ctxOut with
  | (tr, Except.error e) => (tr, Except.error e)
  | (tr, Except.ok _) => (tr ++ service_dtor, body)

/-- Selects the `terminate` entries of a trace. -/
def isTerminate : Call → Bool
  | Call.terminate => true
  | _ => false

/-- Selects the `clearContext` entries of a trace. -/
def isClear : Call → Bool
  | Call.clearContext _ => true
  | _ => false

end espeak_ng

namespace sdl2

/-- External calls performed by the SDL2 wrappers (sdl2.hpp) and the
demo callback: `SDL_SetMainReady`, `SDL_Init`, the diagnostic written
to `stderr` from `SDL_GetError`, `SDL_Quit` and `SDL_QueueAudio`. -/
inductive Call where
  | setMainReady
  | sdlInit (flags : Nat)
  | printError (msg : String)
  | sdlQuit
  | queueAudio (dev : Int)
  deriving DecidableEq

/-- Embeds `sdl2::throw_if` (sdl2.hpp lines 63-68): when the condition
holds, the current `SDL_GetError()` text (oracle `errMsg`) is written
to `stderr` and then `std::runtime_error("SDL2 error")` is thrown;
otherwise nothing happens. -/
def throw_if (errMsg : String) (is_throwing : Bool) : List Call × Except String Unit :=
  if is_throwing then ([Call.printError errMsg], Except.error "SDL2 error")
  else ([], Except.ok ())

/-- Embeds the constructor `service::service(uint32_t)` (sdl2.hpp
lines 86-91): when `SDL_MAIN_HANDLED` is defined (`mainHandled`, true
in main.cpp), `SDL_SetMainReady` is called first; in either case
`SDL_Init(flags)` runs — its result is the oracle `initResult` — and
`throw_if(0 != initResult)` checks it. -/
def service_ctor (mainHandled : Bool) (errMsg : String) (flags : Nat) (initResult : Int) :
    List Call × Except String Unit :=
  let r := throw_if errMsg (decide ((0 : Int) ≠ initResult))
  ((if mainHandled then [Call.setMainReady] else []) ++ Call.sdlInit flags :: r.1, r.2)

/-- Embeds the destructor `service::~service` (sdl2.hpp line 94):
calls `SDL_Quit`. -/
def service_dtor : List Call := [Call.sdlQuit]

/-- C++ lifetime semantics of a scope holding an `sdl2::service`, as
for the eSpeak NG service: the destructor runs when the scope is left,
normally or by unwinding, but only if the constructor succeeded. -/
def service_scope (mainHandled : Bool) (errMsg : String) (flags : Nat) (initResult : Int)
    (body : Except String Unit) : List Call × Except String Unit :=
  match service_ctor mainHandled errMsg flags initResult with
  | (tr, Except.error e) => (tr, Except.error e)
  | (tr, Except.ok _) => (tr ++ service_dtor, body)

/-- Selects the `sdlQuit` entries of a trace. -/
def isQuit : Call → Bool
  | Call.sdlQuit => true
  | _ => false

end sdl2

namespace demo

/-- The `espeak_EVENT` type tags dispatched on by `SynthCallback`
(main.cpp lines 40-48). -/
inductive EventType where
  | listTerminated
  | word
  | sentence
  | mark
  | play
  | endEvent
  | msgTerminated
  | phoneme
  | samplerate
  deriving DecidableEq

/-- Embeds the scan loop of `SynthCallback` (main.cpp lines 37-51):
the loop advances through the array until an
`espeakEVENT_LIST_TERMINATED` entry, doing nothing with the other
entries.  Returns `true` when the array contains a terminator (the
loop stops there) and `false` when the scan would run past the end of
the array. -/
def scan_events : List EventType → Bool
  | [] => false
  | EventType.listTerminated :: _ => true
  | _ :: rest => scan_events rest

/-- Embeds `SynthCallback` (main.cpp lines 34-63).  `wavNonNull` says
whether `wav != nullptr`; `numsamples` is the sample count;
`user_data` is the terminator event's `user_data` field, `none` for a
null pointer and `some dev` for a pointer to an `sdl2::audio_device`
currently holding the handle `dev`; `queueResult` is the oracle result
of `SDL_QueueAudio` and `errMsg` the oracle `SDL_GetError` text.  When
audio queueing is attempted and fails, `sdl2::throw_if` throws out of
the callback; on every other path the callback returns `0`.  A
missing terminator would run the loop past the end of the array,
which the embedding reports as an error. -/
def SynthCallback (wavNonNull : Bool) (numsamples : Int) (events : List EventType)
    (user_data : Option Int) (queueResult : Int) (errMsg : String) :
    List sdl2.Call × Except String Int :=
  if scan_events events then
    if wavNonNull && decide (numsamples ≠ 0) then
      match user_data with
      | some dev =>
        let r := sdl2.throw_if errMsg (decide ((0 : Int) ≠ queueResult))
        (sdl2.Call.queueAudio dev :: r.1,
          match r.2 with
          | Except.ok _ => Except.ok 0
          | Except.error e => Except.error e)
      | none => ([], Except.ok 0)
    else ([], Except.ok 0)
  else ([], Except.error "event list without terminator")

end demo

/-- Claim C1: the claim says invoking the destroy-function adapter on
the empty/null handle value never invokes the underlying release
function.  The source guards — `if (pointer_to_delete == pointer())`
and `if (handle_to_delete == pointer())` — do the opposite of the
code's own doc comments: at sentinel `0` both deleters invoke the
release function on the null handle `0`, and skip the non-null handle
`42`. -/
theorem deleters_fire_exactly_on_null_handle :
    boni.raw_handle_deleter_call (0 : Int) 0 = [0] ∧
    boni.nullable_deleter_call (0 : Int) (boni.nullable.from_nullptr 0) = [0] ∧
    boni.raw_handle_deleter_call (0 : Int) 42 = [] := by
  decide

/-- Claim C2: the claim says an owner holding the non-empty handle 42
releases it exactly once, with argument 42, on destruction or
replacement.  In the code, `std::unique_ptr` invokes the deleter on
the non-null stored pointer, but the deleter's inverted guard then
skips every non-null handle, so destroying or resetting the owner
records zero release calls. -/
theorem destroying_owner_of_42_records_no_release :
    boni.auto_handle_destroy (0 : Int) (boni.auto_handle_from_raw 42) = [] ∧
    (boni.auto_handle_reset (0 : Int) (boni.auto_handle_from_raw 42)
        (boni.nullable.from_nullptr 0)).2 = [] := by
  decide

/-- Claim C3: moving an owner does transfer the handle value 42 to the
destination and resets the source to the empty value 0, but destroying
both instances afterwards fires the release action zero times, not the
exactly-once the claim states, because of the deleters' inverted
guard. -/
theorem move_transfers_but_release_never_fires :
    boni.auto_handle_to_handle
        (boni.auto_handle_move (0 : Int) (boni.auto_handle_from_raw 42)).1 = 42 ∧
    boni.auto_handle_to_handle
        (boni.auto_handle_move (0 : Int) (boni.auto_handle_from_raw 42)).2 = 0 ∧
    boni.auto_handle_destroy (0 : Int)
        (boni.auto_handle_move (0 : Int) (boni.auto_handle_from_raw 42)).1 ++
      boni.auto_handle_destroy (0 : Int)
        (boni.auto_handle_move (0 : Int) (boni.auto_handle_from_raw 42)).2 = [] := by
  decide

/-- Claim C4: `espeak_ng::throw_if_not_ok` raises exactly when the
status is not `ENS_OK` and `sdl2::throw_if` raises exactly when its
condition is true; in the raising case the diagnostic (status message,
respectively `SDL_GetError` text) is written to `stderr` and the
raised error carries the short fixed message; on success neither
writes nor raises anything. -/
theorem throw_helpers_raise_iff_failure (code ctx : Int) (msg : String) (b : Bool) :
    (((espeak_ng.throw_if_not_ok code ctx).2 = Except.error "eSpeak-NG error") ↔
      code ≠ espeak_ng.ENS_OK) ∧
    (code = espeak_ng.ENS_OK → espeak_ng.throw_if_not_ok code ctx = ([], Except.ok ())) ∧
    (code ≠ espeak_ng.ENS_OK →
      (espeak_ng.throw_if_not_ok code ctx).1 = [espeak_ng.Call.printStatus code ctx]) ∧
    (((sdl2.throw_if msg b).2 = Except.error "SDL2 error") ↔ b = true) ∧
    (b = false → sdl2.throw_if msg b = ([], Except.ok ())) ∧
    (b = true → (sdl2.throw_if msg b).1 = [sdl2.Call.printError msg]) := by
  unfold espeak_ng.throw_if_not_ok sdl2.throw_if
  by_cases h : code = espeak_ng.ENS_OK <;> cases b <;> simp [h]

/-- Witness for claim C4 at status 1 and a true condition. -/
theorem throw_helpers_raise_iff_failure_witness :
    (espeak_ng.throw_if_not_ok 1 0).1 = [espeak_ng.Call.printStatus 1 0] ∧
    (sdl2.throw_if "device error" true).1 = [sdl2.Call.printError "device error"] :=
  ⟨(throw_helpers_raise_iff_failure 1 0 "device error" true).2.2.1 (by decide),
   (throw_helpers_raise_iff_failure 1 0 "device error" true).2.2.2.2.2 rfl⟩

/-- Claim C5: for both lifecycle wrappers, the terminator
(`espeak_ng_Terminate`, `SDL_Quit`) appears in the scope's trace
exactly once if and only if the initialiser succeeded; when the
initialiser fails the constructor's exception propagates and the
terminator never runs, and when it succeeds the terminator runs once
even when the rest of the scope raises. -/
theorem service_terminator_iff_init_ok (status ctxOut : Int) (body : Except String Unit)
    (mh : Bool) (msg : String) (flags : Nat) (ir : Int) (body2 : Except String Unit) :
    (((espeak_ng.service_scope status ctxOut body).1.countP espeak_ng.isTerminate = 1) ↔
      status = espeak_ng.ENS_OK) ∧
    (status ≠ espeak_ng.ENS_OK →
      (espeak_ng.service_scope status ctxOut body).2 = Except.error "eSpeak-NG error" ∧
      (espeak_ng.service_scope status ctxOut body).1.countP espeak_ng.isTerminate = 0) ∧
    (status = espeak_ng.ENS_OK → (espeak_ng.service_scope status ctxOut body).2 = body) ∧
    (((sdl2.service_scope mh msg flags ir body2).1.countP sdl2.isQuit = 1) ↔ ir = 0) ∧
    (ir ≠ 0 →
      (sdl2.service_scope mh msg flags ir body2).2 = Except.error "SDL2 error" ∧
      (sdl2.service_scope mh msg flags ir body2).1.countP sdl2.isQuit = 0) ∧
    (ir = 0 → (sdl2.service_scope mh msg flags ir body2).2 = body2) := by
  by_cases h : status = espeak_ng.ENS_OK <;> by_cases h2 : ir = 0 <;> cases mh <;>
    simp [espeak_ng.service_scope, espeak_ng.service_ctor, espeak_ng.throw_if_not_ok,
      espeak_ng.error_context_destroy, espeak_ng.service_dtor, espeak_ng.isTerminate,
      sdl2.service_scope, sdl2.service_ctor, sdl2.throw_if, sdl2.service_dtor,
      sdl2.isQuit, h, h2, eq_comm, List.countP_append, List.countP_cons]

/-- Witness for claim C5: with failing initialisers (status 1), no
terminator runs in either wrapper. -/
theorem service_terminator_iff_init_ok_witness :
    (espeak_ng.service_scope 1 0 (Except.ok ())).1.countP espeak_ng.isTerminate = 0 ∧
    (sdl2.service_scope true "init error" 16 1 (Except.ok ())).1.countP sdl2.isQuit = 0 :=
  ⟨((service_terminator_iff_init_ok 1 0 (Except.ok ()) true "init error" 16 1
      (Except.ok ())).2.1 (by decide)).2,
   ((service_terminator_iff_init_ok 1 0 (Except.ok ()) true "init error" 16 1
      (Except.ok ())).2.2.2.2.1 (by decide)).2⟩

/-- Claim C6: for every handle type and sentinel, a default-constructed
`nullable` converts to `false`, compares equal to a `nullable` built
from `nullptr`, and the explicit boolean conversion of any `nullable`
is `false` exactly when the stored value equals the sentinel. -/
theorem nullable_default_empty_and_bool_iff (α : Type) [DecidableEq α] (nv : α)
    (y : boni.nullable α) :
    boni.nullable.to_bool nv (boni.nullable.mk_default nv) = false ∧
    boni.nullable.eq (boni.nullable.mk_default nv) (boni.nullable.from_nullptr nv) = true ∧
    (boni.nullable.to_bool nv y = false ↔ y.value = nv) := by
  refine ⟨?_, ?_, ?_⟩ <;>
    simp [boni.nullable.to_bool, boni.nullable.eq, boni.nullable.mk_default,
      boni.nullable.from_nullptr, boni.nullable.to_handle]

/-- Witness for claim C6 at handle type `Int` with sentinel 0. -/
theorem nullable_default_empty_witness :
    boni.nullable.to_bool (0 : Int) (boni.nullable.mk_default 0) = false :=
  (nullable_default_empty_and_bool_iff Int 0 (boni.nullable.from_handle 5)).1

/-- Claim C7: constructing a `nullable` from any raw handle value and
converting it back to the raw handle type yields exactly that value. -/
theorem nullable_roundtrip_identity (α : Type) (v : α) :
    boni.nullable.to_handle (boni.nullable.from_handle v) = v := rfl

/-- Witness for claim C7 at the value 42. -/
theorem nullable_roundtrip_identity_witness :
    boni.nullable.to_handle (boni.nullable.from_handle (42 : Int)) = 42 :=
  nullable_roundtrip_identity Int 42

/-- Claim C8: an `auto_handle` constructed from a raw handle value `v`
converts implicitly back to exactly `v`; after a move the destination
converts to `v` and the moved-from source converts to the null value
`nv`. -/
theorem owner_conversion_yields_constructed_handle (α : Type) (nv v : α) :
    boni.auto_handle_to_handle (boni.auto_handle_from_raw v) = v ∧
    boni.auto_handle_to_handle
      (boni.auto_handle_move nv (boni.auto_handle_from_raw v)).1 = v ∧
    boni.auto_handle_to_handle
      (boni.auto_handle_move nv (boni.auto_handle_from_raw v)).2 = nv :=
  ⟨rfl, rfl, rfl⟩

/-- Witness for claim C8 at handle 7 with sentinel 0. -/
theorem owner_conversion_witness :
    boni.auto_handle_to_handle (boni.auto_handle_from_raw (7 : Int)) = 7 :=
  (owner_conversion_yields_constructed_handle Int 0 7).1

/-- Claim C9: the `error_context` destructor calls
`espeak_ng_ClearErrorContext` on its stored context unconditionally,
whatever its value; in particular both exit paths of the
`espeak_ng::service` constructor (throwing and normal) contain exactly
one clear call. -/
theorem error_context_cleared_unconditionally (d status ctxOut : Int) :
    espeak_ng.error_context_destroy d = [espeak_ng.Call.clearContext d] ∧
    (espeak_ng.service_ctor status ctxOut).1.countP espeak_ng.isClear = 1 := by
  refine ⟨rfl, ?_⟩
  by_cases h : status = espeak_ng.ENS_OK <;>
    simp [espeak_ng.service_ctor, espeak_ng.throw_if_not_ok,
      espeak_ng.error_context_destroy, espeak_ng.isClear, h,
      List.countP_append, List.countP_cons]

/-- Witness for claim C9 at a never-populated context (0) with a
failing initialisation status. -/
theorem error_context_cleared_witness :
    (espeak_ng.service_ctor 1 0).1.countP espeak_ng.isClear = 1 :=
  (error_context_cleared_unconditionally 0 1 0).2

/-- Claim C10 counterexample: with a non-null wav buffer, one sample, a
terminator-ended events array, a registered audio device and a failing
`SDL_QueueAudio`, `SynthCallback` throws out of the callback instead
of returning the continue signal 0. -/
theorem synth_callback_can_throw_instead_of_returning :
    (demo.SynthCallback true 1 [demo.EventType.listTerminated] (some 1) 1 "e").2 ≠
      Except.ok 0 := by
  simp [demo.SynthCallback, demo.scan_events, sdl2.throw_if]

/-- Claim C10 as amended: on every input with a terminator-ended
events array, `SynthCallback` either returns the continue signal 0 or
raises the SDL2 error (when forwarding audio to the device queue
fails); whenever it returns a value at all, that value is 0, never the
abort signal. -/
theorem synth_callback_returns_continue_or_throws (wav : Bool) (n : Int)
    (events : List demo.EventType) (dev : Option Int) (q : Int) (msg : String)
    (h : demo.scan_events events = true) :
    ((demo.SynthCallback wav n events dev q msg).2 = Except.ok 0 ∨
      (demo.SynthCallback wav n events dev q msg).2 = Except.error "SDL2 error") ∧
    ∀ (k : Int), (demo.SynthCallback wav n events dev q msg).2 = Except.ok k → k = 0 := by
  cases dev with
  | none =>
    by_cases hw : wav = true ∧ ¬n = 0 <;> simp [demo.SynthCallback, h, hw]
  | some d =>
    by_cases hw : wav = true ∧ ¬n = 0
    · by_cases hq : (0 : Int) = q
      · simp [demo.SynthCallback, sdl2.throw_if, h, hw, ← hq]
      · simp [demo.SynthCallback, sdl2.throw_if, h, hw, hq]
    · simp [demo.SynthCallback, sdl2.throw_if, h, hw]

/-- Witness for amended claim C10: with a succeeding queue call the
callback returns 0. -/
theorem synth_callback_returns_continue_witness :
    (demo.SynthCallback true 1 [demo.EventType.listTerminated] (some 1) 0 "e").2 =
        Except.ok 0 ∨
      (demo.SynthCallback true 1 [demo.EventType.listTerminated] (some 1) 0 "e").2 =
        Except.error "SDL2 error" :=
  (synth_callback_returns_continue_or_throws true 1 [demo.EventType.listTerminated]
    (some 1) 0 "e" (by decide)).1
